import Mathlib

/-!
Verification of the geo-query-engine core against its specification.

The development shallowly embeds the TypeScript sources:
  * `src/spatial/distance.ts` and `src/spatial/bounds.ts` (geometry over ℝ),
  * `src/spatial/index.ts` / `StaticSpatialIndex.ts` (the two index variants,
    with the RBush rectangle query and the geokdbush radius traversal modelled
    by their documented semantics: a rectangle query returns exactly the stored
    points inside the rectangle, `geokdbush.around` returns exactly the stored
    points within the distance bound, ordered by ascending distance),
  * `src/filters/index.ts` (the dynamic filter evaluator),
  * `src/core/QueryBuilder.ts` (the query pipeline, parametric over the
    spatial-index interface exactly as the source is),
  * `src/core/GeoSearch.ts` (the engine facade),
  * `src/utils/LRUCache.ts` (absent from the sources; modelled from the spec).

JavaScript dynamic values are embedded as the inductive `Value`; JavaScript
numbers (IEEE doubles) are embedded as `JsNumG α`: either NaN, one of the two
infinities, or a finite value drawn from `α`.  Every double is an exact
rational, and the pipeline performs no arithmetic on numbers — only `===`,
`<`, `<=`, `>=` comparisons — so `JsNumG ℚ` models the attribute values
exactly.  The geometry layer computes with real-valued trigonometry, so it
uses `ℝ` (and `JsNumG ℝ` where its distances meet the pipeline).
-/

/-- Model of a JavaScript number: NaN, +Infinity, -Infinity, or a finite
value from `α` (`α := ℚ` for exact data values, `α := ℝ` for geometry). -/
inductive JsNumG (α : Type) where
  | nan
  | posInf
  | negInf
  | fin (x : α)
  deriving DecidableEq

namespace JsNumG

variable {α : Type} [LinearOrder α]

/-- JavaScript strict equality `===` on numbers: `NaN === NaN` is false,
finite values compare exactly, the infinities compare by identity. -/
def seq : JsNumG α → JsNumG α → Bool
  | nan, _ => false
  | _, nan => false
  | posInf, posInf => true
  | posInf, _ => false
  | negInf, negInf => true
  | negInf, _ => false
  | fin a, fin b => decide (a = b)
  | fin _, _ => false

/-- JavaScript SameValueZero on numbers (used by `Array.prototype.includes`):
like `===` except that NaN equals NaN. -/
def svz : JsNumG α → JsNumG α → Bool
  | nan, nan => true
  | a, b => seq a b

/-- JavaScript `<` on numbers: any comparison involving NaN is false. -/
def ltb : JsNumG α → JsNumG α → Bool
  | nan, _ => false
  | _, nan => false
  | posInf, _ => false
  | negInf, posInf => true
  | negInf, negInf => false
  | negInf, fin _ => true
  | fin _, posInf => true
  | fin _, negInf => false
  | fin a, fin b => decide (a < b)

/-- JavaScript `<=` on numbers: false if either side is NaN, otherwise the
negation of `>` (ECMAScript defines `a <= b` as `!(b < a)`). -/
def leb (a b : JsNumG α) : Bool :=
  match a, b with
  | nan, _ => false
  | _, nan => false
  | x, y => !(ltb y x)

end JsNumG

/-- Model of a primitive JavaScript value (a scalar stored in an array).
Array elements are restricted to primitives: the data sets and properties
below never use nested arrays. -/
inductive SVal where
  | num (n : JsNumG ℚ)
  | str (s : String)
  | bool (b : Bool)
  | null
  | undefined
  deriving DecidableEq

/-- Model of a JavaScript value as seen by the filter evaluator and the sort
comparator: a number, a string, a boolean, null, undefined, or an array of
primitives. -/
inductive Value where
  | num (n : JsNumG ℚ)
  | str (s : String)
  | bool (b : Bool)
  | null
  | undefined
  | arr (l : List SVal)
  deriving DecidableEq

/-- View of a primitive value as a `Value`. -/
def SVal.toValue : SVal → Value
  | .num n => .num n
  | .str s => .str s
  | .bool b => .bool b
  | .null => .null
  | .undefined => .undefined

/-- Numeric value of a digit string (used by the ToNumber model). -/
def digitsToNat (cs : List Char) : ℕ :=
  cs.foldl (fun a c => 10 * a + (c.toNat - 48)) 0

/-- Model of ECMAScript ToNumber on strings, restricted to the forms the
embedding uses: the empty (or all-whitespace) string is 0, an optionally
signed decimal literal (`123`, `-4.5`, `.5`, `12.`) is its value, and every
other string is NaN.  (Hex, exponent and `Infinity` forms are not modelled;
no property below evaluates them.) -/
def strToNum (s : String) : JsNumG ℚ :=
  let cs := s.trim.toList
  match cs with
  | [] => .fin 0
  | c :: rest =>
    let p := if c = '-' then ((-1 : ℚ), rest)
             else if c = '+' then ((1 : ℚ), rest)
             else ((1 : ℚ), cs)
    match (List.splitOn '.' p.2) with
    | [ip] =>
      if ip ≠ [] ∧ ip.all Char.isDigit then .fin (p.1 * digitsToNat ip) else .nan
    | [ip, fp] =>
      if (ip ++ fp) ≠ [] ∧ (ip ++ fp).all Char.isDigit then
        .fin (p.1 * ((digitsToNat ip : ℚ) + (digitsToNat fp : ℚ) / 10 ^ fp.length))
      else .nan
    | _ => .nan

/-- Model of ECMAScript ToNumber on the value forms reachable from the
`between` operator and the numeric branch of relational comparison.  For an
array the JavaScript conversion goes through `ToString` (elements joined by
commas, null/undefined elements rendered empty); multi-element arrays
therefore always convert to NaN, and the singleton cases are mapped
accordingly. -/
def toNumber : Value → JsNumG ℚ
  | .num n => n
  | .bool b => .fin (if b then 1 else 0)
  | .null => .fin 0
  | .undefined => .nan
  | .str s => strToNum s
  | .arr [] => .fin 0
  | .arr [.num n] => n
  | .arr [.str s] => strToNum s
  | .arr [.null] => .fin 0
  | .arr [.undefined] => .fin 0
  | .arr [.bool _] => .nan
  | .arr (_ :: _ :: _) => .nan

/-- JavaScript strict equality `===` between two values.  Arrays are compared
by object reference in JavaScript; a query's comparison value and a record's
field value are distinct objects, so the array/array case is modelled as
false (as is any comparison between values of different types). -/
def jsStrictEq : Value → Value → Bool
  | .num a, .num b => JsNumG.seq a b
  | .str a, .str b => decide (a = b)
  | .bool a, .bool b => decide (a = b)
  | .null, .null => true
  | .undefined, .undefined => true
  | _, _ => false

/-- JavaScript SameValueZero between an array element and a value (the
comparison `Array.prototype.includes` performs): like `===` but NaN equals
NaN. -/
def svzSV (e : SVal) (v : Value) : Bool :=
  match e, v with
  | .num a, .num b => JsNumG.svz a b
  | e, v => jsStrictEq e.toValue v

/-- JavaScript SameValueZero between two array elements. -/
def svzSS (a b : SVal) : Bool :=
  svzSV a b.toValue

/-- JavaScript `<` between two values, as used by the sort comparator.  When
both sides are strings the comparison is lexicographic; otherwise both sides
are converted with ToNumber and compared numerically (NaN comparisons are
false).  In JavaScript an array coerces to its joined string before the
comparison; that branch is approximated as false here — no property below
sorts by array-valued keys. -/
def jsLt (v w : Value) : Bool :=
  match v, w with
  | .str a, .str b => decide (a < b)
  | .arr _, _ => false
  | _, .arr _ => false
  | v, w => JsNumG.ltb (toNumber v) (toNumber w)

/-- True when `sub` occurs as a contiguous substring of `s` (the behavior of
JavaScript `String.prototype.includes`): the empty string occurs everywhere,
and a non-empty separator splits `s` into at least two parts exactly when it
occurs. -/
def strContains (s sub : String) : Bool :=
  if sub.isEmpty then true else decide (2 ≤ (s.splitOn sub).length)

/-- The filter operators of `src/filters/index.ts` (`FilterOperator`). -/
inductive FilterOperator where
  | equals
  | notEquals
  | greaterThan
  | greaterThanOrEqual
  | lessThan
  | lessThanOrEqual
  | includes
  | includesAll
  | includesAny
  | startsWith
  | endsWith
  | contains
  | between
  | opIn
  | opNotIn
  deriving DecidableEq

/-- The operator registry `filterOperators` of `src/filters/index.ts`, one
branch per operator, applied to the record's field value and the query's
comparison value.  Each branch mirrors the source: relational operators
require both sides to be numbers or both to be strings and otherwise return
false; the array operators require the guarded side(s) to be arrays;
`between` requires a numeric field and a two-element array (its bounds are
then compared with JavaScript coercion, exactly as `fieldValue >= min &&
fieldValue <= max` does); `in`/`notIn` require the comparison value to be an
array. -/
def filterOp : FilterOperator → Value → Value → Bool
  | .equals, f, v => jsStrictEq f v
  | .notEquals, f, v => !(jsStrictEq f v)
  | .greaterThan, .num a, .num b => JsNumG.ltb b a
  | .greaterThan, .str a, .str b => decide (b < a)
  | .greaterThan, _, _ => false
  | .greaterThanOrEqual, .num a, .num b => JsNumG.leb b a
  | .greaterThanOrEqual, .str a, .str b => decide (b ≤ a)
  | .greaterThanOrEqual, _, _ => false
  | .lessThan, .num a, .num b => JsNumG.ltb a b
  | .lessThan, .str a, .str b => decide (a < b)
  | .lessThan, _, _ => false
  | .lessThanOrEqual, .num a, .num b => JsNumG.leb a b
  | .lessThanOrEqual, .str a, .str b => decide (a ≤ b)
  | .lessThanOrEqual, _, _ => false
  | .includes, .arr l, v => l.any (fun e => svzSV e v)
  | .includes, _, _ => false
  | .includesAll, .arr l, .arr m => m.all (fun v => l.any (fun e => svzSS e v))
  | .includesAll, _, _ => false
  | .includesAny, .arr l, .arr m => m.any (fun v => l.any (fun e => svzSS e v))
  | .includesAny, _, _ => false
  | .startsWith, .str a, .str b => a.startsWith b
  | .startsWith, _, _ => false
  | .endsWith, .str a, .str b => a.endsWith b
  | .endsWith, _, _ => false
  | .contains, .str a, .str b => strContains a b
  | .contains, _, _ => false
  | .between, .num a, .arr [v1, v2] =>
      JsNumG.leb (toNumber v1.toValue) a && JsNumG.leb a (toNumber v2.toValue)
  | .between, _, _ => false
  | .opIn, f, .arr m => m.any (fun e => svzSV e f)
  | .opIn, _, _ => false
  | .opNotIn, f, .arr m => !(m.any (fun e => svzSV e f))
  | .opNotIn, _, _ => false

/-- The function `evaluateFilter` of `src/filters/index.ts`: reads the field
value from the record (`item[field]`, an absent property reading as
undefined, which `getAttr` models) and applies the operator's filter
function. -/
def evaluateFilter {T : Type} (getAttr : T → String → Value) (item : T)
    (field : String) (op : FilterOperator) (value : Value) : Bool :=
  filterOp op (getAttr item field) value

/-- A geographic point (`GeoPoint` of `src/core/types.ts`): latitude and
longitude in degrees.  The geometry layer computes with real numbers. -/
structure GeoPoint where
  lat : ℝ
  lng : ℝ

/-- The Earth mean radius constant of `src/spatial/distance.ts`. -/
def EARTH_RADIUS_KM : ℝ := 6371

/-- Degrees to radians (`toRadians` of `src/spatial/distance.ts`). -/
noncomputable def toRadians (degrees : ℝ) : ℝ :=
  degrees * (Real.pi / 180)

/-- Model of `Math.atan2 y x` on the reals (signed zeros excepted, which the
haversine use below never distinguishes). -/
noncomputable def atan2 (y x : ℝ) : ℝ :=
  if 0 < x then Real.arctan (y / x)
  else if x < 0 then
    (if 0 ≤ y then Real.arctan (y / x) + Real.pi else Real.arctan (y / x) - Real.pi)
  else if 0 < y then Real.pi / 2
  else if y < 0 then -(Real.pi / 2)
  else 0

/-- The haversine great-circle distance of `src/spatial/distance.ts`
(`haversineDistance`). -/
noncomputable def haversineDistance (point1 point2 : GeoPoint) : ℝ :=
  let lat1 := toRadians point1.lat
  let lat2 := toRadians point2.lat
  let deltaLat := toRadians (point2.lat - point1.lat)
  let deltaLng := toRadians (point2.lng - point1.lng)
  let a := Real.sin (deltaLat / 2) * Real.sin (deltaLat / 2) +
    Real.cos lat1 * Real.cos lat2 * Real.sin (deltaLng / 2) * Real.sin (deltaLng / 2)
  let c := 2 * atan2 (Real.sqrt a) (Real.sqrt (1 - a))
  EARTH_RADIUS_KM * c

/-- An axis-aligned bounding box (`BoundingBox` of `src/core/types.ts`). -/
structure BoundingBox where
  minLat : ℝ
  maxLat : ℝ
  minLng : ℝ
  maxLng : ℝ

/-- Kilometers to degrees of latitude (`kmToLatDegrees` of
`src/spatial/bounds.ts`). -/
noncomputable def kmToLatDegrees (km : ℝ) : ℝ :=
  km / 111.32

/-- Kilometers to degrees of longitude at a latitude (`kmToLngDegrees` of
`src/spatial/bounds.ts`). -/
noncomputable def kmToLngDegrees (km latitude : ℝ) : ℝ :=
  let latRad := latitude * Real.pi / 180
  let kmPerDegree := 111.32 * Real.cos latRad
  if kmPerDegree < 0.001 then 360 else km / kmPerDegree

/-- The radius-to-bounding-box conversion (`radiusToBoundingBox` of
`src/spatial/bounds.ts`). -/
noncomputable def radiusToBoundingBox (center : GeoPoint) (radiusKm : ℝ) : BoundingBox :=
  let latDelta := kmToLatDegrees radiusKm
  let lngDelta := kmToLngDegrees radiusKm center.lat
  { minLat := center.lat - latDelta
    maxLat := center.lat + latDelta
    minLng := center.lng - lngDelta
    maxLng := center.lng + lngDelta }

/-- The point-in-box test (`isPointInBounds` of `src/spatial/bounds.ts`). -/
noncomputable def isPointInBounds (point : GeoPoint) (bounds : BoundingBox) : Bool :=
  decide (point.lat ≥ bounds.minLat) &&
    (decide (point.lat ≤ bounds.maxLat) &&
      (decide (point.lng ≥ bounds.minLng) && decide (point.lng ≤ bounds.maxLng)))

section SpatialIndexModel

variable {T : Type}

/-- Rectangle query of the mutable index (`SpatialIndex.searchBounds` of
`src/spatial/index.ts`): the RBush tree search returns exactly the stored
point entries whose (degenerate) boxes intersect the query box, i.e. the
points inside it; `pt` reads a record's coordinates. -/
noncomputable def searchBoundsM (items : List T) (pt : T → GeoPoint)
    (bounds : BoundingBox) : List T :=
  items.filter (fun it => isPointInBounds (pt it) bounds)

/-- Radius query of the mutable index (`SpatialIndex.searchRadius` of
`src/spatial/index.ts`): phase 1 queries the tree with the enclosing
bounding box, phase 2 keeps the candidates whose haversine distance is at
most the radius, pairing each with its distance. -/
noncomputable def searchRadiusM (items : List T) (pt : T → GeoPoint)
    (center : GeoPoint) (radiusKm : ℝ) : List (T × ℝ) :=
  let bbox := radiusToBoundingBox center radiusKm
  let candidates := searchBoundsM items pt bbox
  (candidates.map (fun it => (it, haversineDistance center (pt it)))).filter
    (fun x => decide (x.2 ≤ radiusKm))

/-- The great-circle distance the `geokdbush` library computes
(`geokdbush.distance`): `2 R asin (sqrt h)` with the same haversine `h` and
the same Earth radius 6371 as `haversineDistance` (the two formulas agree on
the mathematical reals). -/
noncomputable def gkDistance (p1 p2 : GeoPoint) : ℝ :=
  let lat1 := toRadians p1.lat
  let lat2 := toRadians p2.lat
  let deltaLat := toRadians (p2.lat - p1.lat)
  let deltaLng := toRadians (p2.lng - p1.lng)
  let h := Real.sin (deltaLat / 2) * Real.sin (deltaLat / 2) +
    Real.cos lat1 * Real.cos lat2 * Real.sin (deltaLng / 2) * Real.sin (deltaLng / 2)
  2 * EARTH_RADIUS_KM * Real.arcsin (Real.sqrt h)

/-- Stable insertion into a comparator-sorted list: `a` is placed before the
first element it compares below-or-equal to (comparator result not
positive). -/
def insertC {α : Type} (cmp : α → α → Int) (a : α) : List α → List α
  | [] => [a]
  | b :: l => if cmp a b > 0 then b :: insertC cmp a l else a :: b :: l

/-- Stable comparator sort.  Models `Array.prototype.sort`, which ECMAScript
requires to be stable; every stable sort produces the same output for a
consistent comparator, and for an inconsistent comparator ECMAScript leaves
the order implementation-defined (the ordering facts proved below assume
consistency exactly where ECMAScript does). -/
def sortC {α : Type} (cmp : α → α → Int) : List α → List α
  | [] => []
  | a :: l => insertC cmp a (sortC cmp l)

/-- Radius query of the immutable index (`StaticSpatialIndex.searchRadius` of
`src/spatial/StaticSpatialIndex.ts`): `geokdbush.around` with a maximum
distance and no result cap returns exactly the stored points within that
distance of the center, ordered by ascending distance (its traversal is
distance-aware and uses no bounding-box over-approximation), and each is
paired with its `geokdbush.distance`. -/
noncomputable def searchRadiusS (items : List T) (pt : T → GeoPoint)
    (center : GeoPoint) (radiusKm : ℝ) : List (T × ℝ) :=
  sortC (fun x y => if x.2 ≤ y.2 then (-1 : Int) else 1)
    ((items.map (fun it => (it, gkDistance center (pt it)))).filter
      (fun x => decide (x.2 ≤ radiusKm)))

/-- Bulk contents of the mutable index (`SpatialIndex.all`): the stored
records; the RBush traversal order is modelled as insertion order. -/
def allM (items : List T) : List T := items

end SpatialIndexModel

/-- Sort direction (`SortOrder` of `src/core/types.ts`). -/
inductive SortOrder where
  | asc
  | desc
  deriving DecidableEq

/-- One sort criterion (`SortCriteria` of `src/core/types.ts`): a field name
(possibly the virtual keys below) and a direction. -/
structure SortCriterion where
  field : String
  order : SortOrder
  deriving DecidableEq

/-- One attribute filter condition (`FilterCondition` of
`src/core/types.ts`). -/
structure FilterCondition where
  field : String
  operator : FilterOperator
  value : Value
  deriving DecidableEq

/-- The name of the virtual sort key for the computed distance. -/
def distanceKey : String := "distance"

/-- The name of the virtual sort key for the computed score. -/
def scoreKey : String := "score"

/-- The query description (`QueryState` of `src/core/types.ts`), parametric
over the record type `T`, the center-point type `P` and bounds type `B` the
spatial index consumes, and the number type `D` of radii, distances and
scores. -/
structure QueryState (T P B D : Type) where
  radiusFilter : Option (P × D)
  boundsFilter : Option B
  attributeFilters : List FilterCondition
  sortCriteria : List SortCriterion
  scoreFunction : Option (T → Option D → D)
  limitCount : Option Nat
  offsetCount : Nat

/-- The fresh query state the `QueryBuilder` constructor produces when no
state is given: no geographic filter, no attribute filters, no sort
criteria, no score function, no limit, offset 0. -/
def emptyQuery (T P B D : Type) : QueryState T P B D :=
  { radiusFilter := none
    boundsFilter := none
    attributeFilters := []
    sortCriteria := []
    scoreFunction := none
    limitCount := none
    offsetCount := 0 }

/-- Comparison structure on the number type `D`: JavaScript `===`, `<`, and
the `Infinity` default used for a missing distance. -/
structure NumOps (D : Type) where
  eqb : D → D → Bool
  ltb : D → D → Bool
  infinity : D

/-- The `===`, `<` and `Infinity` of JavaScript numbers at a linearly
ordered carrier. -/
noncomputable def jsNumOps (α : Type) [LinearOrder α] : NumOps (JsNumG α) :=
  { eqb := JsNumG.seq
    ltb := JsNumG.ltb
    infinity := JsNumG.posInf }

/-- Computable instance of `jsNumOps` at `ℚ` (the pipeline's number model). -/
def ratNumOps : NumOps (JsNumG ℚ) :=
  { eqb := JsNumG.seq
    ltb := JsNumG.ltb
    infinity := JsNumG.posInf }

/-- The spatial-index interface the query builder consumes (`ISpatialIndex`
of `src/spatial/index.ts`), as semantics applied to the index's current
contents. -/
structure IndexSem (T P B D : Type) where
  allF : List T → List T
  searchBoundsF : List T → B → List T
  searchRadiusF : List T → P → D → List (T × D)

/-- One pipeline candidate: a record, its computed distance when a radius
filter produced it, and its computed score when a score function ran. -/
structure Cand (T D : Type) where
  item : T
  distance : Option D
  score : Option D
  deriving DecidableEq

section Pipeline

variable {T P B D : Type}

/-- Step 1 of `QueryBuilder.executeInternal`: resolve candidates from the
radius filter if set, else the bounds filter if set, else all records. -/
def resolveCandidates (sem : IndexSem T P B D) (items : List T)
    (s : QueryState T P B D) : List (Cand T D) :=
  match s.radiusFilter with
  | some f =>
    (sem.searchRadiusF items f.1 f.2).map
      (fun x => { item := x.1, distance := some x.2, score := none })
  | none =>
    match s.boundsFilter with
    | some b =>
      (sem.searchBoundsF items b).map (fun it => { item := it, distance := none, score := none })
    | none =>
      (sem.allF items).map (fun it => { item := it, distance := none, score := none })

/-- Step 2 of `QueryBuilder.executeInternal`: apply each attribute filter in
registration order, each narrowing the candidate list. -/
def applyAttributeFilters (getAttr : T → String → Value)
    (filters : List FilterCondition) (l : List (Cand T D)) : List (Cand T D) :=
  filters.foldl
    (fun acc f =>
      acc.filter (fun c => evaluateFilter getAttr c.item f.field f.operator f.value)) l

/-- Step 3 of `QueryBuilder.executeInternal`: attach a score to every
candidate when a score function is set. -/
def applyScore (s : QueryState T P B D) (l : List (Cand T D)) : List (Cand T D) :=
  match s.scoreFunction with
  | some f => l.map (fun c => { c with score := some (f c.item c.distance) })
  | none => l

/-- A resolved sort-key value: a number (distance or score) or an attribute
value. -/
inductive KeyVal (D : Type) where
  | dv (d : D)
  | av (v : Value)
  deriving DecidableEq

/-- Resolution of one criterion's key for a pair of candidates, following
the comparator of `QueryBuilder.executeInternal`: the virtual key `distance`
reads the computed distance with `Infinity` for a missing one; the virtual
key `score` reads the computed scores when both candidates carry one and
otherwise falls through to the named attribute; any other key reads the
named attribute of the record. -/
def keyPair (getAttr : T → String → Value) (no : NumOps D) (crit : SortCriterion)
    (a b : Cand T D) : KeyVal D × KeyVal D :=
  if crit.field = distanceKey then
    (.dv (a.distance.getD no.infinity), .dv (b.distance.getD no.infinity))
  else if crit.field = scoreKey then
    match a.score, b.score with
    | some x, some y => (.dv x, .dv y)
    | _, _ => (.av (getAttr a.item crit.field), .av (getAttr b.item crit.field))
  else (.av (getAttr a.item crit.field), .av (getAttr b.item crit.field))

/-- JavaScript `===` on resolved sort keys.  The two components of a
`keyPair` always have the same shape, so the mixed cases are unreachable;
they are mapped to false. -/
def keyEqb (no : NumOps D) : KeyVal D → KeyVal D → Bool
  | .dv x, .dv y => no.eqb x y
  | .av v, .av w => jsStrictEq v w
  | _, _ => false

/-- JavaScript `<` on resolved sort keys (mixed cases unreachable, as in
`keyEqb`). -/
def keyLtb (no : NumOps D) : KeyVal D → KeyVal D → Bool
  | .dv x, .dv y => no.ltb x y
  | .av v, .av w => jsLt v w
  | _, _ => false

/-- The multi-key comparator of `QueryBuilder.executeInternal`: compare by
the first criterion; on strict equality of the resolved keys fall through to
the next; with no criteria left return 0.  An unequal pair yields -1 when
the left key is below the right and 1 otherwise, negated for a descending
criterion. -/
def cmpCriteria (getAttr : T → String → Value) (no : NumOps D) :
    List SortCriterion → Cand T D → Cand T D → Int
  | [], _, _ => 0
  | crit :: rest, a, b =>
    let p := keyPair getAttr no crit a b
    if keyEqb no p.1 p.2 then cmpCriteria getAttr no rest a b
    else
      let comparison : Int := if keyLtb no p.1 p.2 then -1 else 1
      if crit.order = .asc then comparison else -comparison

/-- Step 4 of `QueryBuilder.executeInternal`: when sort criteria are set,
sort the candidates stably by the multi-key comparator. -/
def applySort (getAttr : T → String → Value) (no : NumOps D)
    (criteria : List SortCriterion) (l : List (Cand T D)) : List (Cand T D) :=
  if criteria.isEmpty then l else sortC (cmpCriteria getAttr no criteria) l

/-- Step 5 of `QueryBuilder.executeInternal`: drop `offset` items from the
front when the offset is positive, then keep at most `limit` items when a
limit is set. -/
def applySlice (s : QueryState T P B D) (l : List (Cand T D)) : List (Cand T D) :=
  let l1 := if 0 < s.offsetCount then l.drop s.offsetCount else l
  match s.limitCount with
  | some k => l1.take k
  | none => l1

/-- Step 6 of `QueryBuilder.executeInternal`: attach the computed distance
to the output only when a radius filter produced one. -/
def formatResults (s : QueryState T P B D) (l : List (Cand T D)) : List (T × Option D) :=
  l.map (fun c =>
    if s.radiusFilter.isSome && c.distance.isSome then (c.item, c.distance)
    else (c.item, none))

/-- The full `QueryBuilder.executeInternal` pipeline. -/
def executeInternal (getAttr : T → String → Value) (no : NumOps D)
    (sem : IndexSem T P B D) (items : List T) (s : QueryState T P B D) :
    List (T × Option D) :=
  formatResults s
    (applySlice s
      (applySort getAttr no s.sortCriteria
        (applyScore s
          (applyAttributeFilters getAttr s.attributeFilters
            (resolveCandidates sem items s)))))

/-- The builder method `QueryBuilder.near`: a new state with the radius
filter replaced. -/
def nearQ (s : QueryState T P B D) (center : P) (radiusKm : D) : QueryState T P B D :=
  { s with radiusFilter := some (center, radiusKm) }

/-- The builder method `QueryBuilder.withinBounds`: a new state with the
bounds filter replaced. -/
def withinBoundsQ (s : QueryState T P B D) (bounds : B) : QueryState T P B D :=
  { s with boundsFilter := some bounds }

/-- The builder method `QueryBuilder.where`: a new state with the condition
appended to the attribute filters. -/
def whereQ (s : QueryState T P B D) (field : String) (operator : FilterOperator)
    (value : Value) : QueryState T P B D :=
  { s with attributeFilters := s.attributeFilters ++ [⟨field, operator, value⟩] }

/-- The builder method `QueryBuilder.sortBy`. -/
def sortByQ (s : QueryState T P B D) (criteria : List SortCriterion) : QueryState T P B D :=
  { s with sortCriteria := criteria }

/-- The builder method `QueryBuilder.limit`. -/
def limitQ (s : QueryState T P B D) (count : Nat) : QueryState T P B D :=
  { s with limitCount := some count }

/-- The builder method `QueryBuilder.offset`. -/
def offsetQ (s : QueryState T P B D) (count : Nat) : QueryState T P B D :=
  { s with offsetCount := count }

end Pipeline

/-- Modelled from the spec: `src/utils/LRUCache.ts` is not among the
sources; spec section 4.4 describes the result cache as a bounded mapping
with a fixed maximum entry count where `get` returns the value and marks the
key most-recently-used, `set` inserts or overwrites as most-recently-used
and evicts the least-recently-used entry when capacity is exceeded, and
`clear` empties all entries, with eviction purely capacity- and
recency-driven.  Entries are kept most-recently-used first. -/
structure LRUCache (K V : Type) where
  capacity : Nat
  entries : List (K × V)

namespace LRUCache

variable {K V : Type} [DecidableEq K]

/-- Modelled from the spec: cache lookup; on a hit the entry moves to the
front (most-recently-used) and its value is returned, on a miss the cache is
unchanged. -/
def get (c : LRUCache K V) (k : K) : Option V × LRUCache K V :=
  match c.entries.find? (fun e => decide (e.1 = k)) with
  | some e =>
    (some e.2, { c with entries := e :: c.entries.filter (fun e2 => !(decide (e2.1 = k))) })
  | none => (none, c)

/-- Modelled from the spec: insert or overwrite a value as
most-recently-used, evicting from the least-recently-used end whatever
exceeds the capacity. -/
def set (c : LRUCache K V) (k : K) (v : V) : LRUCache K V :=
  { c with
    entries := ((k, v) :: c.entries.filter (fun e => !(decide (e.1 = k)))).take c.capacity }

/-- Modelled from the spec: drop every entry. -/
def clear (c : LRUCache K V) : LRUCache K V :=
  { c with entries := [] }

end LRUCache

/-- The cacheable portion of a query state (`QueryBuilder.getCacheKey`): the
radius filter, bounds filter, attribute filters, sort criteria, limit and
offset — the score function is excluded. -/
structure CacheKey (P B D : Type) where
  radiusFilter : Option (P × D)
  boundsFilter : Option B
  attributeFilters : List FilterCondition
  sortCriteria : List SortCriterion
  limitCount : Option Nat
  offsetCount : Nat
  deriving DecidableEq

/-- Modelled from the spec: `generateCacheKey` of the absent
`src/utils/LRUCache.ts` produces a deterministic canonical serialization of
the cacheable fields of the query state; it is modelled as the tuple of
those fields (a deterministic, injective serialization). -/
def getCacheKey {T P B D : Type} (s : QueryState T P B D) : CacheKey P B D :=
  { radiusFilter := s.radiusFilter
    boundsFilter := s.boundsFilter
    attributeFilters := s.attributeFilters
    sortCriteria := s.sortCriteria
    limitCount := s.limitCount
    offsetCount := s.offsetCount }

/-- The result cache attached to a query chain, keyed by the canonical query
signature and holding final (already paginated) result arrays. -/
def ResultCache (T P B D : Type) : Type :=
  LRUCache (CacheKey P B D) (List (T × Option D))

section Execution

variable {T P B D : Type} [DecidableEq P] [DecidableEq B] [DecidableEq D]

/-- The method `QueryBuilder.execute`: when a cache is attached and no score
function is set, probe the cache with the canonical key — a hit
short-circuits the pipeline and returns the stored array, a miss executes
the pipeline and stores the result; otherwise execute the pipeline
directly.  The (recency-updated) cache is returned alongside the results. -/
def executeQ (getAttr : T → String → Value) (no : NumOps D) (sem : IndexSem T P B D)
    (items : List T) (s : QueryState T P B D) (cache : Option (ResultCache T P B D)) :
    List (T × Option D) × Option (ResultCache T P B D) :=
  match cache, s.scoreFunction with
  | some c, none =>
    let key := getCacheKey s
    match c.get key with
    | (some v, c') => (v, some c')
    | (none, c') =>
      let results := executeInternal getAttr no sem items s
      (results, some (c'.set key results))
  | _, _ => (executeInternal getAttr no sem items s, cache)

/-- Query result metadata (`QueryMetadataWithCache` of `src/core/types.ts`;
the wall-clock `queryTimeMs` field is not modelled). -/
structure QueryMetadata where
  totalMatches : Nat
  returnedCount : Nat
  cached : Bool
  deriving DecidableEq

/-- The method `QueryBuilder.executeWithMetadata`: on a cache hit the stored
array is returned and both counts are approximated by its length; otherwise
the pre-pagination match count is recomputed by re-running candidate
resolution and attribute filtering, the pipeline runs, and on a cacheable
miss the result is stored. -/
def executeWithMetadataQ (getAttr : T → String → Value) (no : NumOps D)
    (sem : IndexSem T P B D) (items : List T) (s : QueryState T P B D)
    (cache : Option (ResultCache T P B D)) :
    (List (T × Option D) × QueryMetadata) × Option (ResultCache T P B D) :=
  match cache, s.scoreFunction with
  | some c, none =>
    let key := getCacheKey s
    match c.get key with
    | (some v, c') =>
      ((v, { totalMatches := v.length, returnedCount := v.length, cached := true }), some c')
    | (none, c') =>
      let totalMatches :=
        (applyAttributeFilters getAttr s.attributeFilters
          (resolveCandidates sem items s)).length
      let results := executeInternal getAttr no sem items s
      ((results, { totalMatches := totalMatches, returnedCount := results.length,
                   cached := false }),
        some (c'.set key results))
  | _, _ =>
    let totalMatches :=
      (applyAttributeFilters getAttr s.attributeFilters
        (resolveCandidates sem items s)).length
    let results := executeInternal getAttr no sem items s
    ((results, { totalMatches := totalMatches, returnedCount := results.length,
                 cached := false }), cache)

end Execution

/-- The error an immutable-backed engine raises on a mutating call
(`StaticSpatialIndex.add` / `addMany` / `remove` / `clear` throw an `Error`
whose message says the operation is not supported; the spec's error taxonomy
names this UnsupportedOperationError). -/
inductive GeoError where
  | unsupportedOperation
  deriving DecidableEq

/-- The engine facade state (`GeoSearch` of `src/core/GeoSearch.ts`): the
owned index contents, the static flag chosen at construction, and the
optional result cache. -/
structure GeoSearch (T P B D : Type) where
  items : List T
  isStatic : Bool
  cache : Option (ResultCache T P B D)

/-- The construction options (`GeoSearchOptions`). -/
structure GeoSearchOptions where
  isStatic : Bool
  useCache : Bool
  cacheSize : Option Nat

/-- The `GeoSearch` constructor: choose the index backing from the static
flag, create the cache (capacity `cacheSize`, default 100) when enabled,
and bulk-load the initial records. -/
def GeoSearch.make (T P B D : Type) (items : List T) (opts : GeoSearchOptions) :
    GeoSearch T P B D :=
  { items := items
    isStatic := opts.isStatic
    cache := if opts.useCache then some { capacity := opts.cacheSize.getD 100, entries := [] }
             else none }

namespace GeoSearch

variable {T P B D : Type} [DecidableEq T] [DecidableEq P] [DecidableEq B] [DecidableEq D]

/-- The method `GeoSearch.add`: the static index's `add` throws before
anything changes; the dynamic index inserts the record, after which the
cache is invalidated. -/
def addE (e : GeoSearch T P B D) (x : T) : Except GeoError Unit × GeoSearch T P B D :=
  if e.isStatic then (.error .unsupportedOperation, e)
  else (.ok (), { e with items := e.items ++ [x], cache := e.cache.map LRUCache.clear })

/-- The method `GeoSearch.addMany`. -/
def addManyE (e : GeoSearch T P B D) (xs : List T) :
    Except GeoError Unit × GeoSearch T P B D :=
  if e.isStatic then (.error .unsupportedOperation, e)
  else (.ok (), { e with items := e.items ++ xs, cache := e.cache.map LRUCache.clear })

/-- The method `GeoSearch.remove`: the static index's `remove` throws; the
dynamic index removes the record's entry when its back-reference is present
(object identity modelled as structural equality, distinct records assumed
structurally distinct) and returns whether it did; the cache is invalidated
only when a record was actually removed. -/
def removeE (e : GeoSearch T P B D) (x : T) : Except GeoError Bool × GeoSearch T P B D :=
  if e.isStatic then (.error .unsupportedOperation, e)
  else if x ∈ e.items then
    (.ok true, { e with items := e.items.erase x, cache := e.cache.map LRUCache.clear })
  else (.ok false, e)

/-- The method `GeoSearch.clear`: the static index's `clear` throws; the
dynamic index empties, after which the cache is invalidated. -/
def clearE (e : GeoSearch T P B D) : Except GeoError Unit × GeoSearch T P B D :=
  if e.isStatic then (.error .unsupportedOperation, e)
  else (.ok (), { e with items := [], cache := e.cache.map LRUCache.clear })

/-- Execution of a query chain against the engine (`QueryBuilder.execute`
reached through any of the `GeoSearch` chain entry points), threading the
engine's cache. -/
def exec (getAttr : T → String → Value) (no : NumOps D) (sem : IndexSem T P B D)
    (e : GeoSearch T P B D) (s : QueryState T P B D) :
    List (T × Option D) × GeoSearch T P B D :=
  let r := executeQ getAttr no sem e.items s e.cache
  (r.1, { e with cache := r.2 })

/-- Execution with metadata against the engine
(`QueryBuilder.executeWithMetadata`). -/
def execMeta (getAttr : T → String → Value) (no : NumOps D) (sem : IndexSem T P B D)
    (e : GeoSearch T P B D) (s : QueryState T P B D) :
    (List (T × Option D) × QueryMetadata) × GeoSearch T P B D :=
  let r := executeWithMetadataQ getAttr no sem e.items s e.cache
  (r.1, { e with cache := r.2 })

end GeoSearch

section SortLemmas

variable {α : Type} {cmp : α → α → Int}

/-- The non-strict order a comparator induces (comparator result not
positive). -/
def leC (cmp : α → α → Int) (a b : α) : Prop := cmp a b ≤ 0

theorem insertC_perm (cmp : α → α → Int) (a : α) (l : List α) :
    (insertC cmp a l).Perm (a :: l) := by
  induction l with
  | nil => simp [insertC]
  | cons b t ih =>
    rw [insertC]
    by_cases h : cmp a b > 0
    · rw [if_pos h]
      exact (ih.cons b).trans (List.Perm.swap a b t)
    · rw [if_neg h]

theorem sortC_perm (cmp : α → α → Int) (l : List α) : (sortC cmp l).Perm l := by
  induction l with
  | nil => rfl
  | cons a t ih => exact (insertC_perm cmp a (sortC cmp t)).trans (ih.cons a)

theorem mem_sortC {x : α} {l : List α} : x ∈ sortC cmp l ↔ x ∈ l :=
  (sortC_perm cmp l).mem_iff

theorem insertC_sublist (cmp : α → α → Int) (a : α) (l : List α) :
    l.Sublist (insertC cmp a l) := by
  induction l with
  | nil => exact List.nil_sublist _
  | cons b t ih =>
    rw [insertC]
    by_cases h : cmp a b > 0
    · rw [if_pos h]
      exact ih.cons₂ b
    · rw [if_neg h]
      exact (List.Sublist.refl _).cons a

theorem insertC_stable {a b : α} {l : List α} (hb : b ∈ l) (hab : ¬ cmp a b > 0) :
    ([a, b]).Sublist (insertC cmp a l) := by
  induction l with
  | nil => cases hb
  | cons c t ih =>
    rw [insertC]
    by_cases h : cmp a c > 0
    · rw [if_pos h]
      rcases List.mem_cons.mp hb with hbc | hb'
      · exact absurd (hbc ▸ h) hab
      · exact (ih hb').cons c
    · rw [if_neg h]
      exact (List.singleton_sublist.mpr hb).cons₂ a

theorem sortC_stable {a b : α} {l : List α} (h : ([a, b]).Sublist l)
    (hab : ¬ cmp a b > 0) : ([a, b]).Sublist (sortC cmp l) := by
  induction l with
  | nil => cases h
  | cons c t ih =>
    rw [sortC]
    cases h with
    | cons _ h' => exact (ih h').trans (insertC_sublist cmp c (sortC cmp t))
    | cons₂ _ h' =>
      exact insertC_stable (mem_sortC.mpr (List.singleton_sublist.mp h')) hab

theorem insertC_pairwise {a : α} {l : List α}
    (total : ∀ x ∈ a :: l, ∀ y ∈ a :: l, cmp x y ≤ 0 ∨ cmp y x ≤ 0)
    (trans : ∀ x ∈ a :: l, ∀ y ∈ a :: l, ∀ z ∈ a :: l,
      cmp x y ≤ 0 → cmp y z ≤ 0 → cmp x z ≤ 0)
    (hl : l.Pairwise (leC cmp)) : (insertC cmp a l).Pairwise (leC cmp) := by
  induction l with
  | nil => simp [insertC, leC]
  | cons b t ih =>
    rw [insertC]
    rw [List.pairwise_cons] at hl
    have hsub : ∀ x, x ∈ a :: t → x ∈ a :: b :: t := by
      intro x hx
      rcases List.mem_cons.mp hx with hxa | hx'
      · exact hxa ▸ List.mem_cons_self _ _
      · exact List.mem_cons_of_mem _ (List.mem_cons_of_mem _ hx')
    by_cases h : cmp a b > 0
    · rw [if_pos h]
      rw [List.pairwise_cons]
      constructor
      · intro y hy
        rcases List.mem_cons.mp ((insertC_perm cmp a t).mem_iff.mp hy) with hya | hy'
        · rcases total a (by simp) b (by simp) with h1 | h1
          · exact absurd h (not_lt.mpr h1)
          · exact hya ▸ h1
        · exact hl.1 y hy'
      · exact ih (fun x hx y hy => total x (hsub x hx) y (hsub y hy))
          (fun x hx y hy z hz => trans x (hsub x hx) y (hsub y hy) z (hsub z hz)) hl.2
    · rw [if_neg h]
      rw [List.pairwise_cons]
      refine ⟨fun y hy => ?_, List.pairwise_cons.mpr hl⟩
      rcases List.mem_cons.mp hy with hyb | hy'
      · exact hyb ▸ Int.not_lt.mp h
      · exact trans a (by simp) b (by simp) y (by simp [hy'])
          (Int.not_lt.mp h) (hl.1 y hy')

theorem sortC_pairwise {l : List α}
    (total : ∀ x ∈ l, ∀ y ∈ l, cmp x y ≤ 0 ∨ cmp y x ≤ 0)
    (trans : ∀ x ∈ l, ∀ y ∈ l, ∀ z ∈ l,
      cmp x y ≤ 0 → cmp y z ≤ 0 → cmp x z ≤ 0) :
    (sortC cmp l).Pairwise (leC cmp) := by
  induction l with
  | nil => simp [sortC]
  | cons a t ih =>
    rw [sortC]
    have hmem : ∀ x, x ∈ a :: sortC cmp t → x ∈ a :: t := by
      intro x hx
      rcases List.mem_cons.mp hx with hxa | hx'
      · exact hxa ▸ List.mem_cons_self _ _
      · exact List.mem_cons_of_mem _ (mem_sortC.mp hx')
    have hup : ∀ x, x ∈ t → x ∈ a :: t := fun x hx => List.mem_cons_of_mem _ hx
    exact insertC_pairwise
      (fun x hx y hy => total x (hmem x hx) y (hmem y hy))
      (fun x hx y hy z hz => trans x (hmem x hx) y (hmem y hy) z (hmem z hz))
      (ih (fun x hx y hy => total x (hup x hx) y (hup y hy))
          (fun x hx y hy z hz => trans x (hup x hx) y (hup y hy) z (hup z hz)))

theorem sortC_of_pairwise {l : List α} (hl : l.Pairwise (leC cmp)) :
    sortC cmp l = l := by
  induction l with
  | nil => rfl
  | cons a t ih =>
    rw [List.pairwise_cons] at hl
    rw [sortC, ih hl.2]
    cases t with
    | nil => rfl
    | cons b t' =>
      rw [insertC, if_neg (not_lt.mpr (hl.1 b (by simp)))]

theorem sortC_idem {l : List α}
    (total : ∀ x ∈ l, ∀ y ∈ l, cmp x y ≤ 0 ∨ cmp y x ≤ 0)
    (trans : ∀ x ∈ l, ∀ y ∈ l, ∀ z ∈ l,
      cmp x y ≤ 0 → cmp y z ≤ 0 → cmp x z ≤ 0) :
    sortC cmp (sortC cmp l) = sortC cmp l :=
  sortC_of_pairwise (sortC_pairwise total trans)

end SortLemmas

section GeometryLemmas

/-- Exact haversine distance along a meridian from the origin: for
`0 ≤ d < 180` degrees of latitude the formula reduces to arc length
`R · d · π / 180`. -/
theorem haversine_meridian (d : ℝ) (h0 : 0 ≤ d) (h1 : d < 180) :
    haversineDistance ⟨0, 0⟩ ⟨d, 0⟩ = 6371 * (d * (Real.pi / 180)) := by
  have hπ := Real.pi_pos
  set θ := d * (Real.pi / 180) with hθ
  have hθ0 : 0 ≤ θ := mul_nonneg h0 (by positivity)
  have hθπ : θ < Real.pi := by
    rw [hθ]
    calc d * (Real.pi / 180) < 180 * (Real.pi / 180) := by
          apply mul_lt_mul_of_pos_right h1 (by positivity)
      _ = Real.pi := by ring
  have hx0 : 0 ≤ θ / 2 := by linarith
  have hxlt : θ / 2 < Real.pi / 2 := by linarith
  have hsin : 0 ≤ Real.sin (θ / 2) :=
    Real.sin_nonneg_of_nonneg_of_le_pi hx0 (by linarith)
  have hcos : 0 < Real.cos (θ / 2) :=
    Real.cos_pos_of_mem_Ioo ⟨by linarith, hxlt⟩
  have key1 : Real.sqrt (Real.sin (θ / 2) * Real.sin (θ / 2)) = Real.sin (θ / 2) :=
    Real.sqrt_mul_self hsin
  have hpyth : 1 - Real.sin (θ / 2) * Real.sin (θ / 2) =
      Real.cos (θ / 2) * Real.cos (θ / 2) := by
    have h := Real.sin_sq_add_cos_sq (θ / 2)
    nlinarith [h]
  have key2 : Real.sqrt (1 - Real.sin (θ / 2) * Real.sin (θ / 2)) = Real.cos (θ / 2) := by
    rw [hpyth]
    exact Real.sqrt_mul_self hcos.le
  have hat : atan2 (Real.sin (θ / 2)) (Real.cos (θ / 2)) = θ / 2 := by
    unfold atan2
    rw [if_pos hcos, ← Real.tan_eq_sin_div_cos,
      Real.arctan_tan (by linarith) hxlt]
  show EARTH_RADIUS_KM * _ = _
  simp only [toRadians, Real.sin_zero, Real.cos_zero]
  norm_num
  rw [key1, key2, hat]
  show (6371 : ℝ) * _ = _
  ring

/-- Exact geokdbush distance along a meridian from the origin: the
`2 R asin √h` form reduces to the same arc length. -/
theorem gkDistance_meridian (d : ℝ) (h0 : 0 ≤ d) (h1 : d ≤ 180) :
    gkDistance ⟨0, 0⟩ ⟨d, 0⟩ = 6371 * (d * (Real.pi / 180)) := by
  have hπ := Real.pi_pos
  set θ := d * (Real.pi / 180) with hθ
  have hθ0 : 0 ≤ θ := mul_nonneg h0 (by positivity)
  have hθπ : θ ≤ Real.pi := by
    rw [hθ]
    calc d * (Real.pi / 180) ≤ 180 * (Real.pi / 180) := by
          apply mul_le_mul_of_nonneg_right h1 (by positivity)
      _ = Real.pi := by ring
  have hx0 : 0 ≤ θ / 2 := by linarith
  have hxle : θ / 2 ≤ Real.pi / 2 := by linarith
  have hsin : 0 ≤ Real.sin (θ / 2) :=
    Real.sin_nonneg_of_nonneg_of_le_pi hx0 (by linarith)
  have key1 : Real.sqrt (Real.sin (θ / 2) * Real.sin (θ / 2)) = Real.sin (θ / 2) :=
    Real.sqrt_mul_self hsin
  have harc : Real.arcsin (Real.sin (θ / 2)) = θ / 2 :=
    Real.arcsin_sin (by linarith) hxle
  show 2 * EARTH_RADIUS_KM * _ = _
  simp only [toRadians, Real.sin_zero, Real.cos_zero]
  norm_num
  rw [key1, harc]
  show 2 * (6371 : ℝ) * _ = _
  ring

end GeometryLemmas

/-- The record at latitude 1.001, longitude 0 lies within 111.32 km of the
origin: its haversine distance is 6371 · 1.001 · π / 180 ≈ 111.306 km. -/
theorem haversine_example_within :
    haversineDistance ⟨0, 0⟩ ⟨1.001, 0⟩ ≤ 111.32 := by
  rw [haversine_meridian 1.001 (by norm_num) (by norm_num)]
  nlinarith [Real.pi_lt_d6]

/-- The mutable index's radius query at the origin with radius 111.32 km
misses the record at latitude 1.001: `kmToLatDegrees` yields a latitude
delta of exactly 1 degree, so the phase-1 bounding box excludes the record
before its distance is ever computed. -/
theorem searchRadiusM_example_empty :
    searchRadiusM [(⟨1.001, 0⟩ : GeoPoint)] id ⟨0, 0⟩ 111.32 = [] := by
  unfold searchRadiusM searchBoundsM radiusToBoundingBox kmToLatDegrees isPointInBounds
  simp [show ¬((1.001 : ℝ) ≤ 111.32 / 111.32) by norm_num]

/-- C1: for every radius query on either index variant, every returned
record is within the radius, and every indexed record within the radius is
returned.  The completeness half fails on the code: with the index holding
the single record at latitude 1.001, longitude 0, the radius query centered
at the origin with radius 111.32 km misses it even though its great-circle
distance (about 111.306 km) is within the radius, because
`radiusToBoundingBox` converts kilometers to degrees of latitude with the
constant 111.32 while a degree of latitude on the 6371 km sphere is only
6371·π/180 ≈ 111.195 km, so the candidate bounding box cuts into the query
circle — contradicting the containment promised by the doc comment of
`radiusToBoundingBox`. -/
theorem C1_searchRadius_misses_record_within_radius :
    haversineDistance ⟨0, 0⟩ ⟨1.001, 0⟩ ≤ 111.32 ∧
    searchRadiusM [(⟨1.001, 0⟩ : GeoPoint)] id ⟨0, 0⟩ 111.32 = [] :=
  ⟨haversine_example_within, searchRadiusM_example_empty⟩

/-- C2: the mutable and immutable variants are claimed to return identical
record sets for the same radius query.  At the same failing input as C1 the
immutable variant (whose geokdbush traversal is distance-aware and uses no
bounding box) returns the record while the mutable variant returns nothing,
so the two sets differ. -/
theorem C2_variant_record_sets_differ :
    (searchRadiusS [(⟨1.001, 0⟩ : GeoPoint)] id ⟨0, 0⟩ 111.32).map Prod.fst =
      [(⟨1.001, 0⟩ : GeoPoint)] ∧
    (searchRadiusM [(⟨1.001, 0⟩ : GeoPoint)] id ⟨0, 0⟩ 111.32).map Prod.fst = [] := by
  constructor
  · have hd : gkDistance ⟨0, 0⟩ ⟨1.001, 0⟩ ≤ 111.32 := by
      rw [gkDistance_meridian 1.001 (by norm_num) (by norm_num)]
      nlinarith [Real.pi_lt_d6]
    unfold searchRadiusS
    simp [hd, sortC, insertC]
  · rw [searchRadiusM_example_empty]
    rfl

/-- Radius query of the mutable index at the pipeline's number type: a
finite radius runs the two-phase search of `searchRadiusM`; per JavaScript
number semantics a NaN radius produces an all-NaN box that excludes every
candidate, a +Infinity radius produces an unbounded box and every distance
passes, and a -Infinity radius produces an inverted, empty box. -/
noncomputable def searchRadiusMD {T : Type} (items : List T) (pt : T → GeoPoint)
    (center : GeoPoint) (d : JsNumG ℝ) : List (T × JsNumG ℝ) :=
  match d with
  | .fin r => (searchRadiusM items pt center r).map (fun x => (x.1, .fin x.2))
  | .nan => []
  | .posInf => items.map (fun it => (it, .fin (haversineDistance center (pt it))))
  | .negInf => []

/-- The mutable index (`SpatialIndex` of `src/spatial/index.ts`) packaged as
the interface the query builder consumes. -/
noncomputable def mutableSem (T : Type) (pt : T → GeoPoint) :
    IndexSem T GeoPoint BoundingBox (JsNumG ℝ) :=
  { allF := allM
    searchBoundsF := fun items b => searchBoundsM items pt b
    searchRadiusF := fun items c d => searchRadiusMD items pt c d }

/-- Attribute reader for bare geographic points: they carry no extra
attributes, so every property reads as undefined. -/
def geoAttr : GeoPoint → String → Value := fun _ _ => .undefined

/-- The whole-world bounding rectangle. -/
def worldBox : BoundingBox :=
  { minLat := -90, maxLat := 90, minLng := -180, maxLng := 180 }

/-- C3 (amended): the two geographic filters live in separate state fields
and execution checks the radius filter first, so whenever a radius filter is
set the bounds filter is ignored entirely (never intersected): adding
`withinBounds` to a chain that has a radius filter does not change its
results, and a chain ending in `near` executes exactly as if no bounds
filter had ever been set.  Consequently `withinBounds(...).near(c, r)`
behaves as `near(c, r)` alone — but `near(c, r).withinBounds(rect)` also
behaves as `near(c, r)`, not as `withinBounds(rect)`. -/
theorem C3_radius_filter_precedence {T P B D : Type} (getAttr : T → String → Value)
    (no : NumOps D) (sem : IndexSem T P B D) (items : List T) :
    (∀ s : QueryState T P B D, ∀ b : B, s.radiusFilter.isSome = true →
       executeInternal getAttr no sem items (withinBoundsQ s b) =
         executeInternal getAttr no sem items s)
  ∧ (∀ s : QueryState T P B D, ∀ c : P, ∀ r : D,
       executeInternal getAttr no sem items (nearQ s c r) =
         executeInternal getAttr no sem items (nearQ { s with boundsFilter := none } c r)) := by
  constructor
  · intro s b h
    obtain ⟨f, hf⟩ := Option.isSome_iff_exists.mp h
    simp [executeInternal, resolveCandidates, withinBoundsQ, hf, applyAttributeFilters,
      applyScore, applySort, applySlice, formatResults]
  · intro s c r
    simp [executeInternal, resolveCandidates, nearQ, applyAttributeFilters,
      applyScore, applySort, applySlice, formatResults]

/-- C3 counterexample: against the mutable index holding the single point at
latitude 10, the chain `near((0,0), 1 km).withinBounds(world)` returns
nothing (the radius filter wins and the point is about 1112 km away — it is
already outside the 1 km bounding box), while the chain
`withinBounds(world)` alone returns the point; so `near` followed by
`withinBounds` does not execute as `withinBounds` alone. -/
theorem C3_counterexample :
    executeInternal geoAttr (jsNumOps ℝ) (mutableSem GeoPoint id) [(⟨10, 0⟩ : GeoPoint)]
        (withinBoundsQ (nearQ (emptyQuery GeoPoint GeoPoint BoundingBox (JsNumG ℝ))
          ⟨0, 0⟩ (.fin 1)) worldBox) ≠
      executeInternal geoAttr (jsNumOps ℝ) (mutableSem GeoPoint id) [(⟨10, 0⟩ : GeoPoint)]
        (withinBoundsQ (emptyQuery GeoPoint GeoPoint BoundingBox (JsNumG ℝ)) worldBox) := by
  have h1 : searchRadiusM [(⟨10, 0⟩ : GeoPoint)] id ⟨0, 0⟩ 1 = [] := by
    unfold searchRadiusM searchBoundsM radiusToBoundingBox kmToLatDegrees isPointInBounds
    simp
    intro a b h1 h2
    exact absurd h2 (by norm_num)
  have h2 : searchBoundsM [(⟨10, 0⟩ : GeoPoint)] id worldBox = [⟨10, 0⟩] := by
    unfold searchBoundsM isPointInBounds worldBox
    simp
    norm_num
  simp [executeInternal, resolveCandidates, nearQ, withinBoundsQ, emptyQuery,
    mutableSem, searchRadiusMD, h1, h2, applyAttributeFilters, applyScore,
    applySort, applySlice, formatResults]

/-- A trivial computable index semantics over unit records, used to
instantiate the generic pipeline theorems at decidable types in witnesses. -/
def mockSem : IndexSem Unit Unit Unit (JsNumG ℚ) :=
  { allF := fun items => items
    searchBoundsF := fun items _ => items
    searchRadiusF := fun items _ _ => items.map (fun it => (it, .fin 0)) }

/-- Attribute reader for unit records: every property reads as undefined. -/
def mockAttr : Unit → String → Value := fun _ _ => .undefined

/-- Witness for C3's amended theorem at a concrete chain: after `near` the
radius filter is set, and adding `withinBounds` leaves the results
unchanged. -/
theorem C3_radius_filter_precedence_witness :
    ((nearQ (emptyQuery Unit Unit Unit (JsNumG ℚ)) () (.fin 1)).radiusFilter.isSome = true) ∧
    executeInternal mockAttr ratNumOps mockSem [()]
        (withinBoundsQ (nearQ (emptyQuery Unit Unit Unit (JsNumG ℚ)) () (.fin 1)) ()) =
      executeInternal mockAttr ratNumOps mockSem [()]
        (nearQ (emptyQuery Unit Unit Unit (JsNumG ℚ)) () (.fin 1)) :=
  ⟨rfl, (C3_radius_filter_precedence mockAttr ratNumOps mockSem [()]).1 _ () rfl⟩

section PipelineCongruence

variable {T P B D : Type}

theorem resolveCandidates_congr {sem : IndexSem T P B D} {items : List T}
    {s s' : QueryState T P B D} (h1 : s'.radiusFilter = s.radiusFilter)
    (h2 : s'.boundsFilter = s.boundsFilter) :
    resolveCandidates sem items s' = resolveCandidates sem items s := by
  unfold resolveCandidates
  rw [h1, h2]

theorem applyScore_congr {s s' : QueryState T P B D} {l : List (Cand T D)}
    (h : s'.scoreFunction = s.scoreFunction) : applyScore s' l = applyScore s l := by
  unfold applyScore
  rw [h]

theorem formatResults_congr {s s' : QueryState T P B D} {l : List (Cand T D)}
    (h : s'.radiusFilter = s.radiusFilter) : formatResults s' l = formatResults s l := by
  unfold formatResults
  rw [h]

end PipelineCongruence

/-- C8 (amended): pagination is applied after sorting, offset before limit,
and the pages partition the unpaginated result: for every query with offset
0 and no limit and every split point `k` at most the total match count, the
whole result equals the page with limit `k` followed by the page with
offset `k` and limit `total − k`; in particular the first `k` items of the
whole result equal the limit-`k` page (the claim's literal equation put the
whole concatenation on the right of the first-`k` prefix). -/
theorem C8_pagination_consistent {T P B D : Type} (getAttr : T → String → Value)
    (no : NumOps D) (sem : IndexSem T P B D) (items : List T)
    (s : QueryState T P B D) (k : Nat)
    (hoff : s.offsetCount = 0) (hlim : s.limitCount = none)
    (hk : k ≤ (executeInternal getAttr no sem items s).length) :
    executeInternal getAttr no sem items s =
      executeInternal getAttr no sem items (limitQ s k) ++
        executeInternal getAttr no sem items
          (limitQ (offsetQ s k) ((executeInternal getAttr no sem items s).length - k))
  ∧ (executeInternal getAttr no sem items s).take k =
      executeInternal getAttr no sem items (limitQ s k) := by
  set m := applySort getAttr no s.sortCriteria
    (applyScore s (applyAttributeFilters getAttr s.attributeFilters
      (resolveCandidates sem items s))) with hm
  have hbase : executeInternal getAttr no sem items s = formatResults s m := by
    rw [executeInternal, ← hm, applySlice, hoff, hlim]
    simp
  have hstage1 : ∀ s' : QueryState T P B D,
      s'.radiusFilter = s.radiusFilter → s'.boundsFilter = s.boundsFilter →
      s'.attributeFilters = s.attributeFilters → s'.sortCriteria = s.sortCriteria →
      s'.scoreFunction = s.scoreFunction →
      executeInternal getAttr no sem items s' = formatResults s (applySlice s' m) := by
    intro s' h1 h2 h3 h4 h5
    rw [executeInternal, resolveCandidates_congr h1 h2, h3, h4,
      applyScore_congr (l := applyAttributeFilters getAttr s.attributeFilters
        (resolveCandidates sem items s)) h5, ← hm, formatResults_congr h1]
  have hlen : (executeInternal getAttr no sem items s).length = m.length := by
    rw [hbase, formatResults, List.length_map]
  have hpage1 : executeInternal getAttr no sem items (limitQ s k) =
      formatResults s (m.take k) := by
    rw [hstage1 (limitQ s k) rfl rfl rfl rfl rfl]
    rw [applySlice]
    simp [limitQ, hoff]
  have hpage2 : ∀ j : Nat, j = m.length - k →
      executeInternal getAttr no sem items (limitQ (offsetQ s k) j) =
        formatResults s (m.drop k) := by
    intro j hj
    rw [hstage1 (limitQ (offsetQ s k) j) rfl rfl rfl rfl rfl]
    have hsl : applySlice (limitQ (offsetQ s k) j) m = m.drop k := by
      rw [applySlice]
      simp only [limitQ, offsetQ]
      by_cases hk0 : 0 < k
      · rw [if_pos hk0, hj]
        have h2 : (m.drop k).length = m.length - k := List.length_drop k m
        rw [← h2, List.take_length]
      · have hk0' : k = 0 := by omega
        subst hk0'
        simp [hj]
    rw [hsl]
  refine ⟨?_, ?_⟩
  · rw [hpage2 ((executeInternal getAttr no sem items s).length - k) (by rw [hlen]),
      hbase, hpage1, formatResults, formatResults, formatResults,
      ← List.map_append, List.take_append_drop]
  · rw [hbase, hpage1, formatResults, formatResults, List.map_take]

/-- C8 counterexample to the claim as literally stated: with two records,
no filters and split point `k = 1 ≤ 2 = total`, the first 1 item of the
unpaginated query is a single record, but the concatenation of the
limit-1 page and the offset-1/limit-(2−1) page has both records, so the
two are not equal. -/
theorem C8_counterexample :
    ¬ ((executeInternal mockAttr ratNumOps mockSem [(), ()]
          (emptyQuery Unit Unit Unit (JsNumG ℚ))).take 1 =
        executeInternal mockAttr ratNumOps mockSem [(), ()]
            (limitQ (emptyQuery Unit Unit Unit (JsNumG ℚ)) 1) ++
          executeInternal mockAttr ratNumOps mockSem [(), ()]
            (limitQ (offsetQ (emptyQuery Unit Unit Unit (JsNumG ℚ)) 1) (2 - 1))) := by
  decide

/-- Witness for C8's amended theorem at a concrete query: two records, no
filters, split point 1. -/
theorem C8_pagination_consistent_witness :
    1 ≤ (executeInternal mockAttr ratNumOps mockSem [(), ()]
          (emptyQuery Unit Unit Unit (JsNumG ℚ))).length ∧
    (executeInternal mockAttr ratNumOps mockSem [(), ()]
        (emptyQuery Unit Unit Unit (JsNumG ℚ))).take 1 =
      executeInternal mockAttr ratNumOps mockSem [(), ()]
        (limitQ (emptyQuery Unit Unit Unit (JsNumG ℚ)) 1) :=
  ⟨by decide,
    (C8_pagination_consistent mockAttr ratNumOps mockSem [(), ()]
      (emptyQuery Unit Unit Unit (JsNumG ℚ)) 1 rfl rfl (by decide)).2⟩

/-- True when the value is a JavaScript number. -/
def Value.isNum : Value → Bool
  | .num _ => true
  | _ => false

/-- True when the value is a string. -/
def Value.isStr : Value → Bool
  | .str _ => true
  | _ => false

/-- True when the value is an array. -/
def Value.isArr : Value → Bool
  | .arr _ => true
  | _ => false

/-- True when the value is a two-element array. -/
def Value.isArr2 : Value → Bool
  | .arr l => decide (l.length = 2)
  | _ => false

/-- A record carrying only named attributes, for instantiating the filter
evaluator at concrete data. -/
structure AttrRec where
  attrs : List (String × Value)
  deriving DecidableEq

/-- Property read `item[field]` on an `AttrRec`: the first binding of the
name, undefined when absent. -/
def attrRead (r : AttrRec) (f : String) : Value :=
  (((r.attrs.find? (fun e => decide (e.1 = f))).map Prod.snd)).getD .undefined

/-- The name of the attribute used in concrete filter examples. -/
def fieldX : String := "x"

/-- A record whose attribute `x` holds the number 0.5. -/
def recHalf : AttrRec :=
  { attrs := [(fieldX, Value.num (.fin (mkRat 1 2)))] }

/-- C6 counterexample: `between` checks only that the field value is a
number and the comparison value a two-element array — it does not check the
bounds are numbers.  The bounds are then compared with JavaScript coercion
(`fieldValue >= min && fieldValue <= max`), so the non-numeric range
`[false, true]` matches the field value 0.5 and the filter returns true,
not false. -/
theorem C6_counterexample :
    evaluateFilter attrRead recHalf fieldX .between
      (.arr [.bool false, .bool true]) = true := by
  decide

/-- C6 (amended): `evaluateFilter` is total, and every listed type-mismatch
case returns false — relational operators on a pair that is not
number/number or string/string, `includes` on a non-array field,
`includesAll`/`includesAny` without arrays on both sides, the string
operators on non-strings, `between` with a non-numeric field or a
comparison value that is not a two-element array, and `in`/`notIn` with a
non-array comparison value.  However `between` does not validate the
element types of its range: with a numeric field and any two-element array
it compares the bounds under JavaScript ToNumber coercion, so a
non-numeric range can still match (see the counterexample). -/
theorem C6_mismatch_returns_false :
    (∀ f v : Value, (f.isNum = false ∨ v.isNum = false) →
      (f.isStr = false ∨ v.isStr = false) →
      filterOp .greaterThan f v = false ∧ filterOp .greaterThanOrEqual f v = false ∧
        filterOp .lessThan f v = false ∧ filterOp .lessThanOrEqual f v = false)
  ∧ (∀ f v : Value, f.isArr = false → filterOp .includes f v = false)
  ∧ (∀ f v : Value, f.isArr = false ∨ v.isArr = false →
      filterOp .includesAll f v = false ∧ filterOp .includesAny f v = false)
  ∧ (∀ f v : Value, (f.isStr = false ∨ v.isStr = false) →
      filterOp .startsWith f v = false ∧ filterOp .endsWith f v = false ∧
        filterOp .contains f v = false)
  ∧ (∀ f v : Value, (f.isNum = false ∨ v.isArr2 = false) →
      filterOp .between f v = false)
  ∧ (∀ f v : Value, v.isArr = false →
      filterOp .opIn f v = false ∧ filterOp .opNotIn f v = false)
  ∧ (∀ (n : JsNumG ℚ) (v1 v2 : SVal),
      filterOp .between (.num n) (.arr [v1, v2]) =
        (JsNumG.leb (toNumber v1.toValue) n && JsNumG.leb n (toNumber v2.toValue))) := by
  refine ⟨?_, ?_, ?_, ?_, ?_, ?_, ?_⟩
  · intro f v h1 h2
    cases f <;> cases v <;> simp_all [filterOp, Value.isNum, Value.isStr]
  · intro f v h
    cases f <;> cases v <;> simp_all [filterOp, Value.isArr]
  · intro f v h
    cases f <;> cases v <;> simp_all [filterOp, Value.isArr]
  · intro f v h
    cases f <;> cases v <;> simp_all [filterOp, Value.isStr]
  · intro f v h
    cases f <;> cases v <;> simp_all [filterOp, Value.isNum, Value.isArr2]
    rename_i l
    rcases l with _ | ⟨x, _ | ⟨y, _ | ⟨z, t⟩⟩⟩ <;> simp_all [filterOp]
  · intro f v h
    cases f <;> cases v <;> simp_all [filterOp, Value.isArr]
  · intro n v1 v2
    rfl

/-- Witness for C6's amended theorem: a boolean field value is not a
number, so `greaterThan` on it returns false. -/
theorem C6_mismatch_returns_false_witness :
    (Value.bool true).isNum = false ∧
      filterOp .greaterThan (.bool true) (.num (.fin 0)) = false :=
  ⟨by decide,
    (C6_mismatch_returns_false.1 (.bool true) (.num (.fin 0))
      (Or.inl (by decide)) (Or.inl (by decide))).1⟩

/-- C7: with sort criteria set the pipeline sorts stably by the multi-key
comparator: (a) a pair in comparator order — in particular a pair tied on
every criterion — keeps its prior relative order; (b) sorting is idempotent;
(c) each pair is compared by the first criterion and falls through to the
next exactly on strict equality of the resolved keys; (d) the virtual key
`distance` reads the computed distance, a missing distance reading as the
`Infinity` of the number model.  The hypotheses `total` and `trans` say the
comparator is consistent on the candidate list — ECMAScript's precondition
for `Array.prototype.sort` to have a defined order at all (it always holds
when the resolved keys are mutually comparable, e.g. all numbers or all
strings, and can only fail through NaN or mixed-type keys). -/
theorem C7_sort_properties {T D : Type} (getAttr : T → String → Value)
    (no : NumOps D) (crits : List SortCriterion) (l : List (Cand T D))
    (total : ∀ x ∈ l, ∀ y ∈ l, cmpCriteria getAttr no crits x y ≤ 0 ∨
      cmpCriteria getAttr no crits y x ≤ 0)
    (trans : ∀ x ∈ l, ∀ y ∈ l, ∀ z ∈ l, cmpCriteria getAttr no crits x y ≤ 0 →
      cmpCriteria getAttr no crits y z ≤ 0 → cmpCriteria getAttr no crits x z ≤ 0) :
    (∀ a b : Cand T D, ([a, b]).Sublist l → cmpCriteria getAttr no crits a b = 0 →
       ([a, b]).Sublist (applySort getAttr no crits l))
  ∧ applySort getAttr no crits (applySort getAttr no crits l) =
      applySort getAttr no crits l
  ∧ (∀ (crit : SortCriterion) (rest : List SortCriterion) (a b : Cand T D),
       keyEqb no (keyPair getAttr no crit a b).1 (keyPair getAttr no crit a b).2 = true →
       cmpCriteria getAttr no (crit :: rest) a b = cmpCriteria getAttr no rest a b)
  ∧ (∀ (crit : SortCriterion) (a b : Cand T D), crit.field = distanceKey →
       keyPair getAttr no crit a b =
         (.dv (a.distance.getD no.infinity), .dv (b.distance.getD no.infinity))) := by
  refine ⟨?_, ?_, ?_, ?_⟩
  · intro a b hab h0
    rw [applySort]
    by_cases hc : crits.isEmpty
    · rw [if_pos hc]
      exact hab
    · rw [if_neg hc]
      exact sortC_stable hab (by omega)
  · rw [applySort, applySort]
    by_cases hc : crits.isEmpty
    · rw [if_pos hc, if_pos hc]
    · rw [if_neg hc, if_neg hc]
      exact sortC_idem total trans
  · intro crit rest a b h
    rw [cmpCriteria]
    simp only [h, if_true]
  · intro crit a b h
    rw [keyPair, if_pos h]

/-- The name of the rating attribute used in concrete sort examples. -/
def ratingKey : String := "rating"

/-- A candidate with rating 2. -/
def candA : Cand AttrRec (JsNumG ℚ) :=
  { item := { attrs := [(ratingKey, Value.num (.fin 2))] }, distance := none, score := none }

/-- A candidate with rating 1. -/
def candB : Cand AttrRec (JsNumG ℚ) :=
  { item := { attrs := [(ratingKey, Value.num (.fin 1))] }, distance := none, score := none }

/-- A concrete candidate list for the sort witness. -/
def sortEx : List (Cand AttrRec (JsNumG ℚ)) := [candA, candB]

/-- Ascending sort by the rating attribute. -/
def critsEx : List SortCriterion := [{ field := ratingKey, order := .asc }]

/-- Witness for C7 at a concrete list with numeric ratings: the comparator
is consistent there and re-sorting the sorted list changes nothing. -/
theorem C7_sort_properties_witness :
    (∀ x ∈ sortEx, ∀ y ∈ sortEx, cmpCriteria attrRead ratNumOps critsEx x y ≤ 0 ∨
      cmpCriteria attrRead ratNumOps critsEx y x ≤ 0) ∧
    applySort attrRead ratNumOps critsEx (applySort attrRead ratNumOps critsEx sortEx) =
      applySort attrRead ratNumOps critsEx sortEx :=
  ⟨by decide,
    (C7_sort_properties attrRead ratNumOps critsEx sortEx (by decide) (by decide)).2.1⟩

section CacheLemmas

variable {K V : Type} [DecidableEq K]

theorem LRUCache.get_set_self (c : LRUCache K V) (k : K) (v : V)
    (hcap : 1 ≤ c.capacity) : ((c.set k v).get k).1 = some v := by
  unfold LRUCache.set LRUCache.get
  obtain ⟨n, hn⟩ : ∃ n, c.capacity = n + 1 := ⟨c.capacity - 1, by omega⟩
  rw [hn]
  simp [List.take_succ_cons, List.find?]

theorem LRUCache.get_miss_eq {c c' : LRUCache K V} {k : K}
    (h : c.get k = (none, c')) : c' = c := by
  unfold LRUCache.get at h
  cases hf : c.entries.find? (fun e => decide (e.1 = k)) with
  | some e =>
    rw [hf] at h
    simp at h
  | none =>
    rw [hf] at h
    injection h with h1 h2
    exact h2.symm

theorem LRUCache.get_move_self {c c' : LRUCache K V} {k : K} {v : V}
    (h : c.get k = (some v, c')) : (c'.get k).1 = some v := by
  unfold LRUCache.get at h ⊢
  cases hf : c.entries.find? (fun e => decide (e.1 = k)) with
  | some e =>
    rw [hf] at h
    have hek : e.1 = k := by
      have := List.find?_some hf
      simpa using this
    injection h with h1 h2
    rw [← h2]
    simp [List.find?, hek, h1]
  | none =>
    rw [hf] at h
    simp at h

theorem LRUCache.get_clear (c : LRUCache K V) (k : K) :
    (LRUCache.clear c).get k = (none, LRUCache.clear c) := by
  unfold LRUCache.clear LRUCache.get
  simp [List.find?]

end CacheLemmas

section EngineLemmas

variable {T P B D : Type} [DecidableEq P] [DecidableEq B] [DecidableEq D]
variable (getAttr : T → String → Value) (no : NumOps D) (sem : IndexSem T P B D)

theorem execMeta_hit {e : GeoSearch T P B D} {s : QueryState T P B D}
    {c c' : ResultCache T P B D} {v : List (T × Option D)}
    (hc : e.cache = some c) (hs : s.scoreFunction = none)
    (h : c.get (getCacheKey s) = (some v, c')) :
    GeoSearch.execMeta getAttr no sem e s =
      ((v, { totalMatches := v.length, returnedCount := v.length, cached := true }),
        { e with cache := some c' }) := by
  unfold GeoSearch.execMeta executeWithMetadataQ
  rw [hc, hs]
  simp only [h]

theorem execMeta_miss {e : GeoSearch T P B D} {s : QueryState T P B D}
    {c c' : ResultCache T P B D}
    (hc : e.cache = some c) (hs : s.scoreFunction = none)
    (h : c.get (getCacheKey s) = (none, c')) :
    GeoSearch.execMeta getAttr no sem e s =
      ((executeInternal getAttr no sem e.items s,
        { totalMatches :=
            (applyAttributeFilters getAttr s.attributeFilters
              (resolveCandidates sem e.items s)).length
          returnedCount := (executeInternal getAttr no sem e.items s).length
          cached := false }),
        { e with
          cache := some (c'.set (getCacheKey s)
            (executeInternal getAttr no sem e.items s)) }) := by
  unfold GeoSearch.execMeta executeWithMetadataQ
  rw [hc, hs]
  simp only [h]

end EngineLemmas

section CacheClaims

variable {T P B D : Type} [DecidableEq P] [DecidableEq B] [DecidableEq D]

/-- C9: on a cacheable execution, a cache miss reports `totalMatches` as the
pre-pagination match count obtained by re-running candidate resolution and
attribute filtering, reports the returned count from the paginated result
and is not marked cached; a cache hit reports both counts as the length of
the cached, already-paginated array and is marked cached, returning that
array. -/
theorem C9_metadata_counts (getAttr : T → String → Value) (no : NumOps D)
    (sem : IndexSem T P B D) (e : GeoSearch T P B D) (s : QueryState T P B D)
    (c : ResultCache T P B D)
    (hc : e.cache = some c) (hs : s.scoreFunction = none) :
    (∀ c' : ResultCache T P B D, c.get (getCacheKey s) = (none, c') →
       (GeoSearch.execMeta getAttr no sem e s).1.2.totalMatches =
         (applyAttributeFilters getAttr s.attributeFilters
           (resolveCandidates sem e.items s)).length ∧
       (GeoSearch.execMeta getAttr no sem e s).1.2.returnedCount =
         (executeInternal getAttr no sem e.items s).length ∧
       (GeoSearch.execMeta getAttr no sem e s).1.2.cached = false ∧
       (GeoSearch.execMeta getAttr no sem e s).1.1 =
         executeInternal getAttr no sem e.items s)
  ∧ (∀ (v : List (T × Option D)) (c' : ResultCache T P B D),
       c.get (getCacheKey s) = (some v, c') →
       (GeoSearch.execMeta getAttr no sem e s).1.2.totalMatches = v.length ∧
       (GeoSearch.execMeta getAttr no sem e s).1.2.returnedCount = v.length ∧
       (GeoSearch.execMeta getAttr no sem e s).1.2.cached = true ∧
       (GeoSearch.execMeta getAttr no sem e s).1.1 = v) := by
  constructor
  · intro c' h
    rw [execMeta_miss getAttr no sem hc hs h]
    exact ⟨rfl, rfl, rfl, rfl⟩
  · intro v c' h
    rw [execMeta_hit getAttr no sem hc hs h]
    exact ⟨rfl, rfl, rfl, rfl⟩

/-- C4: on a cache-enabled engine whose record set does not change between
them, two executions of structurally identical query chains (no score
function) return identical result arrays and the second is reported as a
cache hit; and each successful mutation — add, addMany, a remove that
removed a record, clear — empties the whole cache, so the execution after
it is reported as a cache miss. -/
theorem C4_cache_hit_and_invalidation (getAttr : T → String → Value) (no : NumOps D)
    (sem : IndexSem T P B D) [DecidableEq T] (e : GeoSearch T P B D)
    (s : QueryState T P B D) (c : ResultCache T P B D)
    (hc : e.cache = some c) (hcap : 1 ≤ c.capacity) (hs : s.scoreFunction = none) :
    ((GeoSearch.execMeta getAttr no sem
        (GeoSearch.execMeta getAttr no sem e s).2 s).1.1 =
       (GeoSearch.execMeta getAttr no sem e s).1.1 ∧
     (GeoSearch.execMeta getAttr no sem
        (GeoSearch.execMeta getAttr no sem e s).2 s).1.2.cached = true)
  ∧ (∀ x : T, e.isStatic = false →
       (GeoSearch.addE e x).2.cache = some (LRUCache.clear c) ∧
       (∀ s' : QueryState T P B D, s'.scoreFunction = none →
          (GeoSearch.execMeta getAttr no sem (GeoSearch.addE e x).2 s').1.2.cached = false))
  ∧ (∀ xs : List T, e.isStatic = false →
       (GeoSearch.addManyE e xs).2.cache = some (LRUCache.clear c) ∧
       (∀ s' : QueryState T P B D, s'.scoreFunction = none →
          (GeoSearch.execMeta getAttr no sem (GeoSearch.addManyE e xs).2 s').1.2.cached = false))
  ∧ (∀ x : T, e.isStatic = false → x ∈ e.items →
       (GeoSearch.removeE e x).1 = .ok true ∧
       (GeoSearch.removeE e x).2.cache = some (LRUCache.clear c) ∧
       (∀ s' : QueryState T P B D, s'.scoreFunction = none →
          (GeoSearch.execMeta getAttr no sem (GeoSearch.removeE e x).2 s').1.2.cached = false))
  ∧ (e.isStatic = false →
       (GeoSearch.clearE e).2.cache = some (LRUCache.clear c) ∧
       (∀ s' : QueryState T P B D, s'.scoreFunction = none →
          (GeoSearch.execMeta getAttr no sem (GeoSearch.clearE e).2 s').1.2.cached = false)) := by
  have hmiss : ∀ e' : GeoSearch T P B D, e'.cache = some (LRUCache.clear c) →
      ∀ s' : QueryState T P B D, s'.scoreFunction = none →
      (GeoSearch.execMeta getAttr no sem e' s').1.2.cached = false := by
    intro e' hce s' hs'
    rw [execMeta_miss getAttr no sem hce hs' (LRUCache.get_clear c (getCacheKey s'))]
  refine ⟨?_, ?_, ?_, ?_, ?_⟩
  · cases hget : c.get (getCacheKey s) with
    | mk ov c₂ =>
      cases ov with
      | some v =>
        rw [execMeta_hit getAttr no sem hc hs hget]
        have h2 : (c₂.get (getCacheKey s)).1 = some v := LRUCache.get_move_self hget
        have h3 : c₂.get (getCacheKey s) = (some v, (c₂.get (getCacheKey s)).2) := by
          rw [← h2]
        rw [execMeta_hit getAttr no sem rfl hs h3]
        exact ⟨rfl, rfl⟩
      | none =>
        rw [execMeta_miss getAttr no sem hc hs hget]
        have hc₂ : c₂ = c := LRUCache.get_miss_eq hget
        have hcap₂ : 1 ≤ (c₂.set (getCacheKey s)
            (executeInternal getAttr no sem e.items s)).capacity := by
          rw [hc₂]
          exact hcap
        have h2 := LRUCache.get_set_self c₂ (getCacheKey s)
          (executeInternal getAttr no sem e.items s) (by rw [hc₂]; exact hcap)
        have h3 : (c₂.set (getCacheKey s) (executeInternal getAttr no sem e.items s)).get
            (getCacheKey s) =
            (some (executeInternal getAttr no sem e.items s),
              ((c₂.set (getCacheKey s) (executeInternal getAttr no sem e.items s)).get
                (getCacheKey s)).2) := by
          rw [← h2]
        rw [execMeta_hit getAttr no sem rfl hs h3]
        exact ⟨rfl, rfl⟩
  · intro x hdyn
    have he' : (GeoSearch.addE e x).2.cache = some (LRUCache.clear c) := by
      unfold GeoSearch.addE
      rw [if_neg (by simp [hdyn])]
      simp [hc]
    exact ⟨he', hmiss _ he'⟩
  · intro xs hdyn
    have he' : (GeoSearch.addManyE e xs).2.cache = some (LRUCache.clear c) := by
      unfold GeoSearch.addManyE
      rw [if_neg (by simp [hdyn])]
      simp [hc]
    exact ⟨he', hmiss _ he'⟩
  · intro x hdyn hx
    have hr : GeoSearch.removeE e x =
        (.ok true, { e with items := e.items.erase x, cache := e.cache.map LRUCache.clear }) := by
      unfold GeoSearch.removeE
      rw [if_neg (by simp [hdyn]), if_pos hx]
    have he' : (GeoSearch.removeE e x).2.cache = some (LRUCache.clear c) := by
      rw [hr]
      simp [hc]
    exact ⟨by rw [hr], he', hmiss _ he'⟩
  · intro hdyn
    have he' : (GeoSearch.clearE e).2.cache = some (LRUCache.clear c) := by
      unfold GeoSearch.clearE
      rw [if_neg (by simp [hdyn])]
      simp [hc]
    exact ⟨he', hmiss _ he'⟩

end CacheClaims

/-- C5: on an engine constructed in static mode every mutation —
`add`, `addMany`, `remove`, `clear` — surfaces an UnsupportedOperationError
to the caller (the static index throws before anything changes, there is no
retry or catch anywhere on the path) and leaves the engine, in particular
its stored record set, completely unchanged. -/
theorem C5_static_mutations_raise {T P B D : Type} [DecidableEq T]
    (e : GeoSearch T P B D) (hstat : e.isStatic = true) :
    (∀ x : T, GeoSearch.addE e x = (.error .unsupportedOperation, e))
  ∧ (∀ xs : List T, GeoSearch.addManyE e xs = (.error .unsupportedOperation, e))
  ∧ (∀ x : T, GeoSearch.removeE e x = (.error .unsupportedOperation, e))
  ∧ GeoSearch.clearE e = (.error .unsupportedOperation, e) := by
  refine ⟨?_, ?_, ?_, ?_⟩ <;>
    simp [GeoSearch.addE, GeoSearch.addManyE, GeoSearch.removeE, GeoSearch.clearE, hstat]

/-- C10: on a dynamic-mode engine, removing a record that is not present
returns false and changes nothing observable: the engine (its record set and
its cache) is exactly as before, so any execution — in particular a repeated
identical cacheable query that was a hit — behaves exactly as on the
original engine. -/
theorem C10_remove_absent_noop {T P B D : Type} [DecidableEq T] [DecidableEq P]
    [DecidableEq B] [DecidableEq D] (e : GeoSearch T P B D) (x : T)
    (hdyn : e.isStatic = false) (hx : x ∉ e.items) :
    (GeoSearch.removeE e x).1 = .ok false
  ∧ (GeoSearch.removeE e x).2 = e
  ∧ (∀ (getAttr : T → String → Value) (no : NumOps D) (sem : IndexSem T P B D)
       (s : QueryState T P B D),
       GeoSearch.execMeta getAttr no sem (GeoSearch.removeE e x).2 s =
         GeoSearch.execMeta getAttr no sem e s) := by
  have hr : GeoSearch.removeE e x = (.ok false, e) := by
    unfold GeoSearch.removeE
    rw [if_neg (by simp [hdyn]), if_neg hx]
  refine ⟨by rw [hr], by rw [hr], fun getAttr no sem s => by rw [hr]⟩

/-- An empty result cache with the default capacity 100. -/
def cacheEx : ResultCache Unit Unit Unit (JsNumG ℚ) :=
  { capacity := 100, entries := [] }

/-- A cache-enabled dynamic-mode engine over unit records. -/
def cachedEngineEx : GeoSearch Unit Unit Unit (JsNumG ℚ) :=
  GeoSearch.make Unit Unit Unit (JsNumG ℚ) [()]
    { isStatic := false, useCache := true, cacheSize := none }

/-- Witness for C4 at a concrete cache-enabled engine: re-running the empty
query is reported as a cache hit. -/
theorem C4_cache_hit_and_invalidation_witness :
    cachedEngineEx.cache = some cacheEx ∧ 1 ≤ cacheEx.capacity ∧
    (emptyQuery Unit Unit Unit (JsNumG ℚ)).scoreFunction = none ∧
    (GeoSearch.execMeta mockAttr ratNumOps mockSem
        (GeoSearch.execMeta mockAttr ratNumOps mockSem cachedEngineEx
          (emptyQuery Unit Unit Unit (JsNumG ℚ))).2
        (emptyQuery Unit Unit Unit (JsNumG ℚ))).1.2.cached = true :=
  ⟨rfl, by decide, rfl,
    (C4_cache_hit_and_invalidation mockAttr ratNumOps mockSem cachedEngineEx
      (emptyQuery Unit Unit Unit (JsNumG ℚ)) cacheEx rfl (by decide) rfl).1.2⟩

/-- Witness for C9 at a concrete engine whose cache is empty: the first
execution of the empty query is a miss and reports it. -/
theorem C9_metadata_counts_witness :
    cacheEx.get (getCacheKey (emptyQuery Unit Unit Unit (JsNumG ℚ))) = (none, cacheEx) ∧
    (GeoSearch.execMeta mockAttr ratNumOps mockSem cachedEngineEx
      (emptyQuery Unit Unit Unit (JsNumG ℚ))).1.2.cached = false :=
  ⟨rfl,
    ((C9_metadata_counts mockAttr ratNumOps mockSem cachedEngineEx
      (emptyQuery Unit Unit Unit (JsNumG ℚ)) cacheEx rfl rfl).1 cacheEx rfl).2.2.1⟩

/-- A static-mode engine over unit records. -/
def staticEngineEx : GeoSearch Unit Unit Unit (JsNumG ℚ) :=
  GeoSearch.make Unit Unit Unit (JsNumG ℚ) [()]
    { isStatic := true, useCache := false, cacheSize := none }

/-- Witness for C5 at a concrete static engine: `add` raises and the engine
is unchanged. -/
theorem C5_static_mutations_raise_witness :
    staticEngineEx.isStatic = true ∧
    GeoSearch.addE staticEngineEx () = (.error .unsupportedOperation, staticEngineEx) :=
  ⟨rfl, (C5_static_mutations_raise staticEngineEx rfl).1 ()⟩

/-- A cache-enabled dynamic-mode engine over boolean records holding only
`true`. -/
def dynEngineEx : GeoSearch Bool Unit Unit (JsNumG ℚ) :=
  GeoSearch.make Bool Unit Unit (JsNumG ℚ) [true]
    { isStatic := false, useCache := true, cacheSize := none }

/-- Witness for C10 at a concrete engine: removing the absent record
`false` returns false. -/
theorem C10_remove_absent_noop_witness :
    dynEngineEx.isStatic = false ∧ (false ∉ dynEngineEx.items) ∧
    (GeoSearch.removeE dynEngineEx false).1 = .ok false :=
  ⟨rfl, by decide, (C10_remove_absent_noop dynEngineEx false rfl (by decide)).1⟩
